import Mathlib

/-!
Verification development for `airbyte-ci/connectors/pipelines/pipelines/airbyte_ci/connectors/context.py`.

The file shallowly embeds the `ConnectorContext` class of that module: its credential
accessors, its metadata-driven step-skip policy, its memoized secret retrieval, and the
`__aexit__` teardown sequence. Python `Optional[str]` fields become `Option String`,
Python truthiness is modelled explicitly, exceptions become an `Except` outcome, and the
object mutation performed by `_skip_metadata_disabled_test_suites` is modelled with an
explicit heap of configuration objects. External collaborators (secret store, report
persistence, GitHub status check, Slack webhook) live outside this module; their outcomes
are parameters of the teardown model.
-/

set_option autoImplicit false

/-- Python truthiness of an `Optional[str]` value: `None` and the empty string are falsy. -/
def pyTruthy : Option String → Bool
  | none => false
  | some s => s ≠ ""

/-- Step identifiers of the connector test pipeline. The enumeration
`CONNECTOR_TEST_STEP_ID` is declared in `consts.py`; the module under study only uses the
three members mapped by `TEST_SUITE_NAME_TO_STEP_ID`. -/
inductive CONNECTOR_TEST_STEP_ID where
  | UNIT
  | INTEGRATION
  | ACCEPTANCE
  deriving DecidableEq, Repr

/-- `TEST_SUITE_NAME_TO_STEP_ID`: the fixed mapping, in source order, from the test suite
names declared in metadata.yaml files to pipeline step identifiers. A Python dict
preserves insertion order, so it is embedded as an association list. -/
def TEST_SUITE_NAME_TO_STEP_ID : List (String × CONNECTOR_TEST_STEP_ID) :=
  [("unitTests", CONNECTOR_TEST_STEP_ID.UNIT),
   ("integrationTests", CONNECTOR_TEST_STEP_ID.INTEGRATION),
   ("acceptanceTests", CONNECTOR_TEST_STEP_ID.ACCEPTANCE)]

/-- One entry of the `connectorTestSuitesOptions` metadata list: a mapping carrying a
`suite` key (the code reads `option["suite"]`). -/
structure ConnectorTestSuiteOption where
  suite : String
  deriving DecidableEq, Repr

/-- The structured view of the `data` section of a connector metadata.yaml that the
accessors of `ConnectorContext` assume: `dockerRepository` and `dockerImageTag` are
required, `connectorTestSuitesOptions` is optional (`none` embeds an absent key, read
through `metadata.get("connectorTestSuitesOptions", [])`). -/
structure ConnectorMetadata where
  dockerRepository : String
  dockerImageTag : String
  connectorTestSuitesOptions : Option (List ConnectorTestSuiteOption)
  deriving DecidableEq, Repr

/-- `_get_step_id_to_skip_according_to_metadata`: the step ids whose suite name is not
declared in the metadata `connectorTestSuitesOptions` field. -/
def _get_step_id_to_skip_according_to_metadata (metadata : ConnectorMetadata) :
    List CONNECTOR_TEST_STEP_ID :=
  let enabled_test_suites :=
    (metadata.connectorTestSuitesOptions.getD []).map (fun opt => opt.suite)
  (TEST_SUITE_NAME_TO_STEP_ID.filter
    (fun p => !(enabled_test_suites.contains p.1))).map (fun p => p.2)

/-- Modelled from the spec: the step-skip configuration (`RunStepOptions` of
`run_steps.py`, outside this module). `skip_steps` is the field the policy appends to;
`fail_fast` and `keep_steps` stand for the remaining configuration, carried along so the
frame of the update is expressible. -/
structure RunStepOptions where
  fail_fast : Bool := true
  skip_steps : List CONNECTOR_TEST_STEP_ID := []
  keep_steps : List CONNECTOR_TEST_STEP_ID := []
  deriving DecidableEq, Repr, Inhabited

/-- A heap of `RunStepOptions` objects: Python objects are references into a store, and
`_skip_metadata_disabled_test_suites` copies and then mutates in place. A reference is an
index into `cells`. -/
structure PyHeap where
  cells : List RunStepOptions
  deriving DecidableEq, Repr

/-- Dereference a `RunStepOptions` object. -/
def PyHeap.get (h : PyHeap) (r : Nat) : RunStepOptions :=
  h.cells.getD r default

/-- In-place mutation of the object behind reference `r`. -/
def PyHeap.set (h : PyHeap) (r : Nat) (v : RunStepOptions) : PyHeap :=
  ⟨h.cells.set r v⟩

/-- Allocate a fresh object, returning the new heap and the new reference. -/
def PyHeap.alloc (h : PyHeap) (v : RunStepOptions) : PyHeap × Nat :=
  (⟨h.cells ++ [v]⟩, h.cells.length)

/-- `deepcopy(run_step_options)`: allocates a fresh object holding the same value. -/
def deepcopy (h : PyHeap) (r : Nat) : PyHeap × Nat :=
  h.alloc (h.get r)

/-- `_skip_metadata_disabled_test_suites`: deep-copies the given run step options object
and appends the metadata-computed skip list to the skip_steps of the copy, returning (the
heap after) the copy. The original object is only read. -/
def _skip_metadata_disabled_test_suites (metadata : ConnectorMetadata) (h : PyHeap)
    (run_step_options : Nat) : PyHeap × Nat :=
  let copied := deepcopy h run_step_options
  let h2 := copied.1
  let r2 := copied.2
  let cur := h2.get r2
  let h3 := h2.set r2
    { cur with skip_steps := cur.skip_steps ++ _get_step_id_to_skip_according_to_metadata metadata }
  (h3, r2)

/-- A dagger secret handle: `dagger_client.set_secret(name, value)` names a secret and
binds its plaintext value. -/
structure Secret where
  name : String
  value : String
  deriving DecidableEq, Repr

/-- `dagger_client.set_secret`. -/
def set_secret (name : String) (value : String) : Secret :=
  { name := name, value := value }

/-- The result of one executed pipeline step, as recorded in a report. Only the list
structure matters to this module (`ConnectorReport(self, [])` builds the empty default). -/
structure StepResult where
  title : String
  success : Bool
  deriving DecidableEq, Repr

/-- A connector test report: the module only constructs `ConnectorReport(self, [])`, a
report with zero executed steps; the context back-reference of the Python constructor is
left implicit. -/
structure ConnectorReport where
  stepResults : List StepResult
  deriving DecidableEq, Repr

/-- A dagger directory reference; only identity and presence matter here. -/
abbrev Directory := String

/-- Exceptions crossing the boundaries modelled here. -/
inductive PyExn where
  | notImplementedError
  | runtimeError (message : String)
  | otherError (message : String)
  deriving DecidableEq, Repr

/-- Modelled from the spec: the terminal status of a connector pipeline run computed at
teardown (`determine_final_state` lives in `pipeline_context.py`, outside this module). -/
inductive FinalState where
  | success
  | failure
  deriving DecidableEq, Repr

/-- The state of a `ConnectorContext` object: the constructor-stored configuration fields
and the mutable run-scoped fields (`report`, `_connector_secrets`,
`_updated_secrets_dir`, `stopped_at`, `state`) that the claims touch. `logs` records the
messages passed to `self.logger.error`. -/
structure ConnectorContext where
  use_remote_secrets : Bool := true
  should_save_report : Bool := true
  slack_webhook : Option String := none
  reporting_slack_channel : Option String := none
  docker_hub_username : Option String := none
  docker_hub_password : Option String := none
  s3_build_cache_access_key_id : Option String := none
  s3_build_cache_secret_key : Option String := none
  _updated_secrets_dir : Option Directory := none
  _connector_secrets : Option (List (String × Secret)) := none
  report : Option ConnectorReport := none
  state : FinalState := FinalState.success
  stopped_at : Option Nat := none
  logs : List String := []
  deriving DecidableEq, Repr

/-- `self.logger.error(message)`: the message is appended to the log. -/
def pushLog (ctx : ConnectorContext) (message : String) : ConnectorContext :=
  { ctx with logs := ctx.logs ++ [message] }

/-- `s3_build_cache_access_key_id_secret` property: a truthiness test on the stored
field; a named secret handle wrapping the value when truthy, `None` otherwise. -/
def s3_build_cache_access_key_id_secret (ctx : ConnectorContext) : Option Secret :=
  if pyTruthy ctx.s3_build_cache_access_key_id then
    some (set_secret "s3_build_cache_access_key_id" (ctx.s3_build_cache_access_key_id.getD ""))
  else
    none

/-- `s3_build_cache_secret_key_secret` property: requires both cache credential fields to
be truthy, then wraps the secret key value. -/
def s3_build_cache_secret_key_secret (ctx : ConnectorContext) : Option Secret :=
  if pyTruthy ctx.s3_build_cache_access_key_id && pyTruthy ctx.s3_build_cache_secret_key then
    some (set_secret "s3_build_cache_secret_key" (ctx.s3_build_cache_secret_key.getD ""))
  else
    none

/-- `docker_hub_username_secret` property: an explicit `is None` test, so an empty string
is wrapped rather than dropped. -/
def docker_hub_username_secret (ctx : ConnectorContext) : Option Secret :=
  match ctx.docker_hub_username with
  | none => none
  | some u => some (set_secret "docker_hub_username" u)

/-- `docker_hub_password_secret` property: an explicit `is None` test, so an empty string
is wrapped rather than dropped. -/
def docker_hub_password_secret (ctx : ConnectorContext) : Option Secret :=
  match ctx.docker_hub_password with
  | none => none
  | some p => some (set_secret "docker_hub_password" p)

/-- `should_save_updated_secrets` property: remote secrets are in use and an updated
secrets directory is present. -/
def should_save_updated_secrets (ctx : ConnectorContext) : Bool :=
  ctx.use_remote_secrets && ctx._updated_secrets_dir.isSome

/-- Modelled from the spec: `should_send_slack_message` is defined on the base
`PipelineContext` (outside this module); the comment at its call site in `__aexit__`
states that it checks non-nullity of `slack_webhook` and `reporting_slack_channel`. -/
def should_send_slack_message (ctx : ConnectorContext) : Bool :=
  ctx.slack_webhook.isSome && ctx.reporting_slack_channel.isSome

/-- `get_connector_secrets`: memoized retrieval. `fetched` is the mapping the external
`secrets.get_connector_secrets(self)` call (outside this module) would return; the
returned `Nat` counts how many times that external call was made during this call (0 or
1). -/
def get_connector_secrets (fetched : List (String × Secret)) (ctx : ConnectorContext) :
    ConnectorContext × List (String × Secret) × Nat :=
  match ctx._connector_secrets with
  | none => ({ ctx with _connector_secrets := some fetched }, fetched, 1)
  | some s => (ctx, s, 0)

/-- A YAML value, for the metadata descriptor document. -/
inductive Yaml where
  | str (s : String)
  | seq (items : List Yaml)
  | map (entries : List (String × Yaml))

/-- Look up a key in a YAML mapping (first match, as in a parsed Python dict). -/
def yamlLookup (key : String) : List (String × Yaml) → Option Yaml
  | [] => none
  | (k, v) :: rest => if k = key then some v else yamlLookup key rest

/-- The outcome of reading and YAML-parsing the descriptor file at
`connector.code_directory / METADATA_FILE_NAME`: the file may be absent (the read
raises), its text may fail to parse or parse to something other than a top-level mapping
(the load or the subscript raises), or it parses to a mapping. -/
inductive MetadataFileState where
  | absent
  | malformed
  | parsed (doc : List (String × Yaml))

/-- The error kinds of the metadata accessor, as the spec names them. -/
inductive MetadataError where
  | MetadataNotFound
  | MetadataParseError
  deriving DecidableEq, Repr

/-- Modelled from the spec: the `metadata` property evaluates
`yaml.safe_load(self.metadata_path.read_text())["data"]`. File reading and YAML parsing
are external (`pathlib`, `yaml`), so the accessor is embedded over the outcome of that
pipeline: an absent file fails with `MetadataNotFound`; a malformed document, or a
document whose `data` key is absent or not a mapping, fails with `MetadataParseError`; it
returns the `data` mapping otherwise. -/
def metadata (file : MetadataFileState) : Except MetadataError (List (String × Yaml)) :=
  match file with
  | MetadataFileState.absent => Except.error MetadataError.MetadataNotFound
  | MetadataFileState.malformed => Except.error MetadataError.MetadataParseError
  | MetadataFileState.parsed doc =>
    match yamlLookup "data" doc with
    | some (Yaml.map entries) => Except.ok entries
    | some _ => Except.error MetadataError.MetadataParseError
    | none => Except.error MetadataError.MetadataParseError

/-- Modelled from the spec: `determine_final_state` (on the base `PipelineContext`,
outside this module) computes the terminal run status from the attached report and the
exception, if any, raised in the guarded scope: an exception or a missing or failing
report means failure. -/
def determine_final_state (report : Option ConnectorReport) (exception_value : Option PyExn) :
    FinalState :=
  match exception_value, report with
  | some _, _ => FinalState.failure
  | none, none => FinalState.failure
  | none, some r => if r.stepResults.all (fun s => s.success) then FinalState.success else FinalState.failure

/-- The base-class `create_slack_message` method: it raises `NotImplementedError`;
concrete pipeline types override it. -/
def create_slack_message : Except PyExn String :=
  Except.error PyExn.notImplementedError

/-- The outcomes of the external collaborator calls made by `__aexit__`, plus the
dynamically dispatched `create_slack_message`: each is either a raised exception or a
normal return. `upload` is `secrets.upload(self)`, `save` is `self.report.save()`,
`updateCommitStatusCheck` is `update_commit_status_check(**self.github_commit_status)`,
`sendMessageToWebhook` is `send_message_to_webhook(...)`. A context whose concrete type
does not override `create_slack_message` has `createSlackMessage = create_slack_message`. -/
structure Collaborators where
  upload : Except PyExn Unit
  save : Except PyExn Unit
  updateCommitStatusCheck : Except PyExn Unit
  sendMessageToWebhook : Except PyExn Unit
  createSlackMessage : Except PyExn String
  deriving Repr

/-- Observable external actions of a teardown run, recorded at the moment the
corresponding collaborator is invoked (even if that call then raises). -/
inductive TeardownEvent where
  | uploadedSecrets
  | printedReport (report : ConnectorReport)
  | savedReport (report : ConnectorReport)
  | updatedCommitStatus
  | sentSlackMessage (message : String) (channel : String) (webhook : String)
  deriving DecidableEq, Repr

/-- The result of running `__aexit__`: the context object as mutated by the run, the
trace of collaborator invocations, and the outcome — `Except.ok true` embeds reaching
`return True`, `Except.error e` embeds `__aexit__` itself raising `e`. -/
structure TeardownResult where
  ctx : ConnectorContext
  events : List TeardownEvent
  outcome : Except PyExn Bool
  deriving Repr

/-- Step 8 of `__aexit__`: if a slack webhook and channel are configured, build the
message with the (dispatched) `create_slack_message` and send it; either call raising
aborts the teardown with that exception. -/
def teardown_slack (collab : Collaborators) (ctx : ConnectorContext)
    (events : List TeardownEvent) : TeardownResult :=
  if should_send_slack_message ctx then
    match collab.createSlackMessage with
    | Except.error e => { ctx := ctx, events := events, outcome := Except.error e }
    | Except.ok message =>
      let events := events ++ [TeardownEvent.sentSlackMessage message
        (ctx.reporting_slack_channel.getD "") (ctx.slack_webhook.getD "")]
      match collab.sendMessageToWebhook with
      | Except.error e => { ctx := ctx, events := events, outcome := Except.error e }
      | Except.ok _ => { ctx := ctx, events := events, outcome := Except.ok true }
  else
    { ctx := ctx, events := events, outcome := Except.ok true }

/-- Step 7 of `__aexit__`: update the commit status check, unconditionally; a raise
aborts the teardown (there is no enclosing handler), so step 8 is not reached. -/
def teardown_commit_status (collab : Collaborators) (ctx : ConnectorContext)
    (events : List TeardownEvent) : TeardownResult :=
  let events := events ++ [TeardownEvent.updatedCommitStatus]
  match collab.updateCommitStatusCheck with
  | Except.error e => { ctx := ctx, events := events, outcome := Except.error e }
  | Except.ok _ => teardown_slack collab ctx events

/-- Step 6 of `__aexit__`: save the report when configured to; a raise aborts the
teardown. -/
def teardown_save_report (collab : Collaborators) (ctx : ConnectorContext)
    (report : ConnectorReport) (events : List TeardownEvent) : TeardownResult :=
  if ctx.should_save_report then
    let events := events ++ [TeardownEvent.savedReport report]
    match collab.save with
    | Except.error e => { ctx := ctx, events := events, outcome := Except.error e }
    | Except.ok _ => teardown_commit_status collab ctx events
  else
    teardown_commit_status collab ctx events

/-- Step 5 of `__aexit__`: `self.report.print()`, rendering the (by now always present)
report to the output sink. -/
def teardown_print_report (collab : Collaborators) (ctx : ConnectorContext)
    (report : ConnectorReport) (events : List TeardownEvent) : TeardownResult :=
  teardown_save_report collab ctx report (events ++ [TeardownEvent.printedReport report])

/-- Step 4 of `__aexit__`: upload the updated secrets when `should_save_updated_secrets`;
a raise aborts the teardown. -/
def teardown_upload_secrets (collab : Collaborators) (ctx : ConnectorContext)
    (report : ConnectorReport) : TeardownResult :=
  if should_save_updated_secrets ctx then
    match collab.upload with
    | Except.error e => { ctx := ctx, events := [TeardownEvent.uploadedSecrets], outcome := Except.error e }
    | Except.ok _ => teardown_print_report collab ctx report [TeardownEvent.uploadedSecrets]
  else
    teardown_print_report collab ctx report []

/-- `__aexit__`: records the stop time, computes the final state from the pre-teardown
report and the scope exception, logs a handled scope exception, substitutes an empty
default report when none was attached (logging an error), then runs steps 4 through 8.
Reaching the final `return True` yields outcome `Except.ok true`, which suppresses the
scope exception; an exception raised by a teardown step itself propagates instead. -/
def aexit (collab : Collaborators) (now : Nat) (exception_value : Option PyExn)
    (ctx : ConnectorContext) : TeardownResult :=
  let ctx1 := { ctx with
    stopped_at := some now,
    state := determine_final_state ctx.report exception_value }
  let ctx2 :=
    if exception_value.isSome then
      pushLog ctx1 "An error got handled by the ConnectorContext"
    else ctx1
  match ctx2.report with
  | some r => teardown_upload_secrets collab ctx2 r
  | none =>
    let ctx3 := { pushLog ctx2 "No test report was provided. This is probably due to an upstream error" with
      report := some { stepResults := [] } }
    teardown_upload_secrets collab ctx3 { stepResults := [] }

/-! Theorems -/

/-- The enabled suite names read from the metadata. -/
def enabledSuiteNames (md : ConnectorMetadata) : List String :=
  (md.connectorTestSuitesOptions.getD []).map (fun opt => opt.suite)

/-- The skip computation, folded through `enabledSuiteNames`. -/
theorem skip_eq_filter (md : ConnectorMetadata) :
    _get_step_id_to_skip_according_to_metadata md =
      (TEST_SUITE_NAME_TO_STEP_ID.filter
        (fun p => !((enabledSuiteNames md).contains p.1))).map (fun p => p.2) := rfl

/-- C1: for every connector metadata value, the step-skip policy returns exactly the step
identifiers of the three recognized suites whose suite name does not appear among the
enabled-suite names of `connectorTestSuitesOptions`; when that field is absent or empty,
the skip list is all three recognized step identifiers, and when exactly one recognized
suite is enabled, the skip list is the other two. -/
theorem skip_policy_is_complement_of_enabled_suites (md : ConnectorMetadata) :
    (∀ sid : CONNECTOR_TEST_STEP_ID,
        sid ∈ _get_step_id_to_skip_according_to_metadata md ↔
          ∃ name, (name, sid) ∈ TEST_SUITE_NAME_TO_STEP_ID ∧ name ∉ enabledSuiteNames md)
    ∧ ((md.connectorTestSuitesOptions = none ∨ md.connectorTestSuitesOptions = some []) →
        _get_step_id_to_skip_according_to_metadata md =
          [CONNECTOR_TEST_STEP_ID.UNIT, CONNECTOR_TEST_STEP_ID.INTEGRATION,
           CONNECTOR_TEST_STEP_ID.ACCEPTANCE])
    ∧ ("unitTests" ∈ enabledSuiteNames md → "integrationTests" ∉ enabledSuiteNames md →
        "acceptanceTests" ∉ enabledSuiteNames md →
        _get_step_id_to_skip_according_to_metadata md =
          [CONNECTOR_TEST_STEP_ID.INTEGRATION, CONNECTOR_TEST_STEP_ID.ACCEPTANCE])
    ∧ ("integrationTests" ∈ enabledSuiteNames md → "unitTests" ∉ enabledSuiteNames md →
        "acceptanceTests" ∉ enabledSuiteNames md →
        _get_step_id_to_skip_according_to_metadata md =
          [CONNECTOR_TEST_STEP_ID.UNIT, CONNECTOR_TEST_STEP_ID.ACCEPTANCE])
    ∧ ("acceptanceTests" ∈ enabledSuiteNames md → "unitTests" ∉ enabledSuiteNames md →
        "integrationTests" ∉ enabledSuiteNames md →
        _get_step_id_to_skip_according_to_metadata md =
          [CONNECTOR_TEST_STEP_ID.UNIT, CONNECTOR_TEST_STEP_ID.INTEGRATION]) := by
  refine ⟨?_, ?_, ?_, ?_, ?_⟩
  · intro sid
    rw [skip_eq_filter]
    generalize enabledSuiteNames md = l
    by_cases h1 : "unitTests" ∈ l <;> by_cases h2 : "integrationTests" ∈ l <;>
      by_cases h3 : "acceptanceTests" ∈ l <;>
      cases sid <;>
      simp [TEST_SUITE_NAME_TO_STEP_ID, List.filter_cons, h1, h2, h3]
  · rintro (h | h) <;>
      simp [_get_step_id_to_skip_according_to_metadata, TEST_SUITE_NAME_TO_STEP_ID, h]
  · intro h1 h2 h3
    simp only [enabledSuiteNames] at h1 h2 h3
    simp [_get_step_id_to_skip_according_to_metadata, TEST_SUITE_NAME_TO_STEP_ID,
      List.filter, h1, h2, h3]
  · intro h1 h2 h3
    simp only [enabledSuiteNames] at h1 h2 h3
    simp [_get_step_id_to_skip_according_to_metadata, TEST_SUITE_NAME_TO_STEP_ID,
      List.filter, h1, h2, h3]
  · intro h1 h2 h3
    simp only [enabledSuiteNames] at h1 h2 h3
    simp [_get_step_id_to_skip_according_to_metadata, TEST_SUITE_NAME_TO_STEP_ID,
      List.filter, h1, h2, h3]

/-- An example metadata enabling only the unit test suite. -/
def mdUnitOnly : ConnectorMetadata :=
  { dockerRepository := "airbyte/source-foo", dockerImageTag := "1.2.3",
    connectorTestSuitesOptions := some [{ suite := "unitTests" }] }

/-- Witness for C1: on metadata enabling only `unitTests`, the skip list is the other two
recognized step identifiers. -/
theorem skip_policy_is_complement_of_enabled_suites_witness :
    ("unitTests" ∈ enabledSuiteNames mdUnitOnly ∧
      "integrationTests" ∉ enabledSuiteNames mdUnitOnly ∧
      "acceptanceTests" ∉ enabledSuiteNames mdUnitOnly)
    ∧ _get_step_id_to_skip_according_to_metadata mdUnitOnly =
        [CONNECTOR_TEST_STEP_ID.INTEGRATION, CONNECTOR_TEST_STEP_ID.ACCEPTANCE] :=
  ⟨⟨by decide, by decide, by decide⟩,
    (skip_policy_is_complement_of_enabled_suites mdUnitOnly).2.2.1
      (by decide) (by decide) (by decide)⟩

/-- Reading an untouched cell after `set` at a different reference. -/
theorem PyHeap.get_set_ne (h : PyHeap) (i j : Nat) (v : RunStepOptions) (hij : i ≠ j) :
    (h.set i v).get j = h.get j := by
  simp [PyHeap.get, PyHeap.set, List.getD_eq_getD_get?, List.get?_eq_getElem?,
    List.getElem?_set_ne hij]

/-- Reading the cell just written by `set`. -/
theorem PyHeap.get_set_self (h : PyHeap) (i : Nat) (v : RunStepOptions)
    (hi : i < h.cells.length) : (h.set i v).get i = v := by
  simp [PyHeap.get, PyHeap.set, List.getD_eq_getD_get?, List.get?_eq_getElem?,
    List.getElem?_set_self hi]

/-- Allocation leaves existing cells unchanged. -/
theorem PyHeap.get_alloc_old (h : PyHeap) (v : RunStepOptions) (r : Nat)
    (hr : r < h.cells.length) : (h.alloc v).1.get r = h.get r := by
  simp [PyHeap.alloc, PyHeap.get, List.getD_eq_getD_get?, List.get?_eq_getElem?,
    List.getElem?_append_left hr]

/-- The freshly allocated cell holds the allocated value. -/
theorem PyHeap.get_alloc_new (h : PyHeap) (v : RunStepOptions) :
    (h.alloc v).1.get h.cells.length = v := by
  simp [PyHeap.alloc, PyHeap.get, List.getD_append_right _ _ _ _ (Nat.le_refl _)]

/-- The update performed by `_skip_metadata_disabled_test_suites`, unfolded. -/
theorem skip_application_unfold (md : ConnectorMetadata) (h : PyHeap) (r : Nat) :
    _skip_metadata_disabled_test_suites md h r =
      ((h.alloc (h.get r)).1.set h.cells.length
        { (h.alloc (h.get r)).1.get h.cells.length with
          skip_steps := ((h.alloc (h.get r)).1.get h.cells.length).skip_steps ++
            _get_step_id_to_skip_according_to_metadata md },
       h.cells.length) := rfl

/-- C5: applying the step-skip policy to a run-step configuration yields a fresh
configuration object whose skip list is the original skip list with the computed skip set
appended (duplicates kept, witnessed by the occurrence counts), all other fields copied,
while the original object is left unchanged on the heap. -/
theorem skip_application_appends_without_mutation (md : ConnectorMetadata)
    (h : PyHeap) (r : Nat) (hr : r < h.cells.length) :
    ((_skip_metadata_disabled_test_suites md h r).2 ≠ r)
    ∧ ((_skip_metadata_disabled_test_suites md h r).1.get r = h.get r)
    ∧ ((_skip_metadata_disabled_test_suites md h r).1.get
          (_skip_metadata_disabled_test_suites md h r).2 =
        { h.get r with skip_steps :=
            (h.get r).skip_steps ++ _get_step_id_to_skip_according_to_metadata md })
    ∧ (∀ sid, ((_skip_metadata_disabled_test_suites md h r).1.get
          (_skip_metadata_disabled_test_suites md h r).2).skip_steps.count sid =
        (h.get r).skip_steps.count sid +
          (_get_step_id_to_skip_according_to_metadata md).count sid) := by
  have hne : h.cells.length ≠ r := Nat.ne_of_gt hr
  have hcur : (h.alloc (h.get r)).1.get h.cells.length = h.get r :=
    PyHeap.get_alloc_new h (h.get r)
  have hlt : h.cells.length < (h.alloc (h.get r)).1.cells.length := by
    simp [PyHeap.alloc]
  refine ⟨?_, ?_, ?_, ?_⟩
  · rw [skip_application_unfold]
    exact hne
  · rw [skip_application_unfold]
    rw [PyHeap.get_set_ne _ _ _ _ hne, PyHeap.get_alloc_old _ _ _ hr]
  · rw [skip_application_unfold]
    rw [PyHeap.get_set_self _ _ _ hlt, hcur]
  · intro sid
    rw [skip_application_unfold]
    rw [PyHeap.get_set_self _ _ _ hlt, hcur]
    simp [List.count_append]

/-- A one-object heap whose configuration already skips the unit test step. -/
def heapExample : PyHeap :=
  ⟨[{ fail_fast := true, skip_steps := [CONNECTOR_TEST_STEP_ID.UNIT], keep_steps := [] }]⟩

/-- Witness for C5 at a concrete heap, reference and metadata. -/
theorem skip_application_appends_without_mutation_witness :
    0 < heapExample.cells.length
    ∧ (((_skip_metadata_disabled_test_suites mdUnitOnly heapExample 0).2 ≠ 0)
      ∧ ((_skip_metadata_disabled_test_suites mdUnitOnly heapExample 0).1.get 0 =
          heapExample.get 0)
      ∧ ((_skip_metadata_disabled_test_suites mdUnitOnly heapExample 0).1.get
            (_skip_metadata_disabled_test_suites mdUnitOnly heapExample 0).2 =
          { heapExample.get 0 with skip_steps := (heapExample.get 0).skip_steps ++
              _get_step_id_to_skip_according_to_metadata mdUnitOnly })
      ∧ (∀ sid, ((_skip_metadata_disabled_test_suites mdUnitOnly heapExample 0).1.get
            (_skip_metadata_disabled_test_suites mdUnitOnly heapExample 0).2).skip_steps.count sid =
          (heapExample.get 0).skip_steps.count sid +
            (_get_step_id_to_skip_according_to_metadata mdUnitOnly).count sid)) :=
  ⟨by decide,
    skip_application_appends_without_mutation mdUnitOnly heapExample 0 (by decide)⟩

/-- C6: the secret-key accessor yields no secret when either cache credential field is
unset, and a named handle wrapping the secret key string when both are set (to nonempty
strings; the empty-string edge is treated separately). -/
theorem s3_secret_key_accessor_requires_both (ctx : ConnectorContext) :
    ((ctx.s3_build_cache_access_key_id = none ∨ ctx.s3_build_cache_secret_key = none) →
      s3_build_cache_secret_key_secret ctx = none)
    ∧ (∀ a k, ctx.s3_build_cache_access_key_id = some a → a ≠ "" →
        ctx.s3_build_cache_secret_key = some k → k ≠ "" →
        s3_build_cache_secret_key_secret ctx =
          some { name := "s3_build_cache_secret_key", value := k }) := by
  constructor
  · rintro (h | h) <;> simp [s3_build_cache_secret_key_secret, pyTruthy, h]
  · intro a k ha hane hk hkne
    simp [s3_build_cache_secret_key_secret, pyTruthy, ha, hk, hane, hkne, set_secret]

/-- A context carrying only the cache access key id. -/
def cxOnlyAccessKey : ConnectorContext :=
  { s3_build_cache_access_key_id := some "AKIA123" }

/-- A context carrying both cache credential fields. -/
def cxBothCacheCreds : ConnectorContext :=
  { s3_build_cache_access_key_id := some "AKIA123",
    s3_build_cache_secret_key := some "topsecret" }

/-- Witness for C6: only the access key set gives no secret; both set gives the named
handle wrapping the secret key. -/
theorem s3_secret_key_accessor_requires_both_witness :
    (cxOnlyAccessKey.s3_build_cache_secret_key = none
      ∧ s3_build_cache_secret_key_secret cxOnlyAccessKey = none)
    ∧ s3_build_cache_secret_key_secret cxBothCacheCreds =
        some { name := "s3_build_cache_secret_key", value := "topsecret" } :=
  ⟨⟨rfl, (s3_secret_key_accessor_requires_both cxOnlyAccessKey).1 (Or.inr rfl)⟩,
    (s3_secret_key_accessor_requires_both cxBothCacheCreds).2 "AKIA123" "topsecret"
      rfl (by decide) rfl (by decide)⟩

/-- C7: `get_connector_secrets` fetches at most once per context: on a context that has
not fetched yet, the first call performs exactly one external fetch, returns and stores
the fetched mapping, and a second call returns the stored mapping with zero external
fetches and an unchanged context (calling twice equals calling once). -/
theorem get_connector_secrets_memoized (ctx : ConnectorContext)
    (f1 f2 : List (String × Secret)) (h : ctx._connector_secrets = none) :
    ((get_connector_secrets f1 ctx).2.2 = 1)
    ∧ ((get_connector_secrets f1 ctx).2.1 = f1)
    ∧ ((get_connector_secrets f1 ctx).1._connector_secrets = some f1)
    ∧ (get_connector_secrets f2 (get_connector_secrets f1 ctx).1 =
        ((get_connector_secrets f1 ctx).1, f1, 0)) := by
  simp [get_connector_secrets, h]

/-- Witness for C7 on a fresh default context and two distinct would-be fetch results. -/
theorem get_connector_secrets_memoized_witness :
    (({} : ConnectorContext)._connector_secrets = none)
    ∧ (((get_connector_secrets [("a", { name := "a", value := "1" })] {}).2.2 = 1)
      ∧ ((get_connector_secrets [("a", { name := "a", value := "1" })] {}).2.1 =
          [("a", { name := "a", value := "1" })])
      ∧ ((get_connector_secrets [("a", { name := "a", value := "1" })]
            ({} : ConnectorContext)).1._connector_secrets =
          some [("a", { name := "a", value := "1" })])
      ∧ (get_connector_secrets []
            (get_connector_secrets [("a", { name := "a", value := "1" })] {}).1 =
          ((get_connector_secrets [("a", { name := "a", value := "1" })] {}).1,
            [("a", { name := "a", value := "1" })], 0))) :=
  ⟨rfl, get_connector_secrets_memoized {} [("a", { name := "a", value := "1" })] [] rfl⟩

/-- C8: the metadata accessor fails with `MetadataNotFound` on an absent descriptor file,
fails with `MetadataParseError` on a malformed document or one missing the top-level
`data` key, and returns the `data` mapping on success. -/
theorem metadata_accessor_error_kinds :
    (metadata MetadataFileState.absent = Except.error MetadataError.MetadataNotFound)
    ∧ (metadata MetadataFileState.malformed = Except.error MetadataError.MetadataParseError)
    ∧ (∀ doc, yamlLookup "data" doc = none →
        metadata (MetadataFileState.parsed doc) = Except.error MetadataError.MetadataParseError)
    ∧ (∀ doc entries, yamlLookup "data" doc = some (Yaml.map entries) →
        metadata (MetadataFileState.parsed doc) = Except.ok entries) := by
  refine ⟨rfl, rfl, ?_, ?_⟩
  · intro doc hd
    simp [metadata, hd]
  · intro doc entries hd
    simp [metadata, hd]

/-- The `data` section of an example well-formed descriptor. -/
def entriesExample : List (String × Yaml) :=
  [("dockerRepository", Yaml.str "airbyte/source-foo"), ("dockerImageTag", Yaml.str "1.2.3")]

/-- An example well-formed descriptor document. -/
def docExample : List (String × Yaml) :=
  [("data", Yaml.map entriesExample)]

/-- Witness for C8: a descriptor with a `data` mapping parses to that mapping, and one
without a `data` key fails with `MetadataParseError`. -/
theorem metadata_accessor_error_kinds_witness :
    (yamlLookup "data" docExample = some (Yaml.map entriesExample)
      ∧ metadata (MetadataFileState.parsed docExample) = Except.ok entriesExample)
    ∧ (yamlLookup "data" [] = none
      ∧ metadata (MetadataFileState.parsed []) = Except.error MetadataError.MetadataParseError) :=
  ⟨⟨rfl, metadata_accessor_error_kinds.2.2.2 docExample entriesExample rfl⟩,
    ⟨rfl, metadata_accessor_error_kinds.2.2.1 [] rfl⟩⟩

/-- C9: the credential accessors treat an empty-string credential inconsistently: the two
s3 build cache accessors drop it (truthiness test), while the two docker hub accessors
wrap it into a handle (only `None` is dropped). -/
theorem empty_string_credential_asymmetry (ctx : ConnectorContext) :
    (ctx.s3_build_cache_access_key_id = some "" →
      s3_build_cache_access_key_id_secret ctx = none)
    ∧ (ctx.s3_build_cache_secret_key = some "" →
      s3_build_cache_secret_key_secret ctx = none)
    ∧ (ctx.docker_hub_username = some "" →
      docker_hub_username_secret ctx = some { name := "docker_hub_username", value := "" })
    ∧ (ctx.docker_hub_password = some "" →
      docker_hub_password_secret ctx = some { name := "docker_hub_password", value := "" }) := by
  refine ⟨?_, ?_, ?_, ?_⟩ <;> intro h <;>
    simp [s3_build_cache_access_key_id_secret, s3_build_cache_secret_key_secret,
      docker_hub_username_secret, docker_hub_password_secret, set_secret, pyTruthy, h]

/-- A context whose four credential fields are all set to the empty string. -/
def cxEmptyCreds : ConnectorContext :=
  { docker_hub_username := some "", docker_hub_password := some "",
    s3_build_cache_access_key_id := some "", s3_build_cache_secret_key := some "" }

/-- Witness for C9 on the all-empty-string context. -/
theorem empty_string_credential_asymmetry_witness :
    (s3_build_cache_access_key_id_secret cxEmptyCreds = none)
    ∧ (s3_build_cache_secret_key_secret cxEmptyCreds = none)
    ∧ (docker_hub_username_secret cxEmptyCreds = some { name := "docker_hub_username", value := "" })
    ∧ (docker_hub_password_secret cxEmptyCreds = some { name := "docker_hub_password", value := "" }) :=
  ⟨(empty_string_credential_asymmetry cxEmptyCreds).1 rfl,
    (empty_string_credential_asymmetry cxEmptyCreds).2.1 rfl,
    (empty_string_credential_asymmetry cxEmptyCreds).2.2.1 rfl,
    (empty_string_credential_asymmetry cxEmptyCreds).2.2.2 rfl⟩

/-- The teardown stages do not modify the context object. -/
theorem teardown_slack_ctx (collab : Collaborators) (ctx : ConnectorContext)
    (events : List TeardownEvent) : (teardown_slack collab ctx events).ctx = ctx := by
  unfold teardown_slack
  by_cases h : should_send_slack_message ctx <;>
    cases hc : collab.createSlackMessage <;>
    cases hs : collab.sendMessageToWebhook <;>
    simp [h, hc, hs]

/-- The commit status stage does not modify the context object. -/
theorem teardown_commit_status_ctx (collab : Collaborators) (ctx : ConnectorContext)
    (events : List TeardownEvent) : (teardown_commit_status collab ctx events).ctx = ctx := by
  unfold teardown_commit_status
  cases hc : collab.updateCommitStatusCheck <;> simp [hc, teardown_slack_ctx]

/-- The report save stage does not modify the context object. -/
theorem teardown_save_report_ctx (collab : Collaborators) (ctx : ConnectorContext)
    (report : ConnectorReport) (events : List TeardownEvent) :
    (teardown_save_report collab ctx report events).ctx = ctx := by
  unfold teardown_save_report
  by_cases h : ctx.should_save_report <;> cases hs : collab.save <;>
    simp [h, hs, teardown_commit_status_ctx]

/-- The report print stage does not modify the context object. -/
theorem teardown_print_report_ctx (collab : Collaborators) (ctx : ConnectorContext)
    (report : ConnectorReport) (events : List TeardownEvent) :
    (teardown_print_report collab ctx report events).ctx = ctx := by
  unfold teardown_print_report
  exact teardown_save_report_ctx ..

/-- The secrets upload stage does not modify the context object. -/
theorem teardown_upload_secrets_ctx (collab : Collaborators) (ctx : ConnectorContext)
    (report : ConnectorReport) :
    (teardown_upload_secrets collab ctx report).ctx = ctx := by
  unfold teardown_upload_secrets
  by_cases h : should_save_updated_secrets ctx <;> cases hu : collab.upload <;>
    simp [h, hu, teardown_print_report_ctx]

/-- Events added by the slack stage are slack messages. -/
theorem teardown_slack_events (collab : Collaborators) (ctx : ConnectorContext)
    (events : List TeardownEvent) :
    ∀ e ∈ (teardown_slack collab ctx events).events,
      e ∈ events ∨ ∃ m c w, e = TeardownEvent.sentSlackMessage m c w := by
  intro e he
  unfold teardown_slack at he
  by_cases h : should_send_slack_message ctx
  · simp only [if_pos h] at he
    cases hc : collab.createSlackMessage with
    | error err =>
      simp only [hc] at he
      exact Or.inl he
    | ok message =>
      simp only [hc] at he
      cases hs : collab.sendMessageToWebhook with
      | error err =>
        simp only [hs] at he
        rcases List.mem_append.mp he with h' | h'
        · exact Or.inl h'
        · have he2 : e = TeardownEvent.sentSlackMessage message
              (ctx.reporting_slack_channel.getD "") (ctx.slack_webhook.getD "") := by
            simpa using h'
          exact Or.inr ⟨_, _, _, he2⟩
      | ok u =>
        simp only [hs] at he
        rcases List.mem_append.mp he with h' | h'
        · exact Or.inl h'
        · have he2 : e = TeardownEvent.sentSlackMessage message
              (ctx.reporting_slack_channel.getD "") (ctx.slack_webhook.getD "") := by
            simpa using h'
          exact Or.inr ⟨_, _, _, he2⟩
  · simp only [if_neg h] at he
    exact Or.inl he

/-- Events added from the commit status stage on are status updates or slack messages. -/
theorem teardown_commit_status_events (collab : Collaborators) (ctx : ConnectorContext)
    (events : List TeardownEvent) :
    ∀ e ∈ (teardown_commit_status collab ctx events).events,
      e ∈ events ∨ e = TeardownEvent.updatedCommitStatus
        ∨ ∃ m c w, e = TeardownEvent.sentSlackMessage m c w := by
  intro e he
  unfold teardown_commit_status at he
  cases hc : collab.updateCommitStatusCheck with
  | error err =>
    simp only [hc] at he
    rcases List.mem_append.mp he with h' | h'
    · exact Or.inl h'
    · right
      left
      simpa using h'
  | ok u =>
    simp only [hc] at he
    rcases teardown_slack_events _ _ _ e he with h' | h'
    · rcases List.mem_append.mp h' with h' | h'
      · exact Or.inl h'
      · right
        left
        simpa using h'
    · exact Or.inr (Or.inr h')

/-- Events added from the save stage on are saves of the given report, status updates or
slack messages. -/
theorem teardown_save_report_events (collab : Collaborators) (ctx : ConnectorContext)
    (report : ConnectorReport) (events : List TeardownEvent) :
    ∀ e ∈ (teardown_save_report collab ctx report events).events,
      e ∈ events ∨ e = TeardownEvent.savedReport report
        ∨ e = TeardownEvent.updatedCommitStatus
        ∨ ∃ m c w, e = TeardownEvent.sentSlackMessage m c w := by
  intro e he
  unfold teardown_save_report at he
  by_cases h : ctx.should_save_report
  · simp only [if_pos h] at he
    cases hs : collab.save with
    | error err =>
      simp only [hs] at he
      rcases List.mem_append.mp he with h' | h'
      · exact Or.inl h'
      · right
        left
        simpa using h'
    | ok u =>
      simp only [hs] at he
      rcases teardown_commit_status_events _ _ _ e he with h' | h' | h'
      · rcases List.mem_append.mp h' with h' | h'
        · exact Or.inl h'
        · right
          left
          simpa using h'
      · exact Or.inr (Or.inr (Or.inl h'))
      · exact Or.inr (Or.inr (Or.inr h'))
  · simp only [if_neg h] at he
    rcases teardown_commit_status_events _ _ _ e he with h' | h' | h'
    · exact Or.inl h'
    · exact Or.inr (Or.inr (Or.inl h'))
    · exact Or.inr (Or.inr (Or.inr h'))

/-- Events added from the print stage on are prints or saves of the given report, status
updates or slack messages. -/
theorem teardown_print_report_events (collab : Collaborators) (ctx : ConnectorContext)
    (report : ConnectorReport) (events : List TeardownEvent) :
    ∀ e ∈ (teardown_print_report collab ctx report events).events,
      e ∈ events ∨ e = TeardownEvent.printedReport report
        ∨ e = TeardownEvent.savedReport report
        ∨ e = TeardownEvent.updatedCommitStatus
        ∨ ∃ m c w, e = TeardownEvent.sentSlackMessage m c w := by
  intro e he
  unfold teardown_print_report at he
  rcases teardown_save_report_events _ _ _ _ e he with h' | h' | h' | h'
  · rcases List.mem_append.mp h' with h' | h'
    · exact Or.inl h'
    · right
      left
      simpa using h'
  · exact Or.inr (Or.inr (Or.inl h'))
  · exact Or.inr (Or.inr (Or.inr (Or.inl h')))
  · exact Or.inr (Or.inr (Or.inr (Or.inr h')))

/-- Every event of a full teardown run concerns the report determined at its start:
uploads, prints and saves of that report, status updates, or slack messages. -/
theorem teardown_upload_secrets_events (collab : Collaborators) (ctx : ConnectorContext)
    (report : ConnectorReport) :
    ∀ e ∈ (teardown_upload_secrets collab ctx report).events,
      e = TeardownEvent.uploadedSecrets ∨ e = TeardownEvent.printedReport report
        ∨ e = TeardownEvent.savedReport report
        ∨ e = TeardownEvent.updatedCommitStatus
        ∨ ∃ m c w, e = TeardownEvent.sentSlackMessage m c w := by
  intro e he
  unfold teardown_upload_secrets at he
  by_cases h : should_save_updated_secrets ctx
  · simp only [if_pos h] at he
    cases hu : collab.upload with
    | error err =>
      simp only [hu] at he
      left
      simpa using he
    | ok u =>
      simp only [hu] at he
      rcases teardown_print_report_events _ _ _ _ e he with h' | h' | h' | h' | h'
      · left
        simpa using h'
      · exact Or.inr (Or.inl h')
      · exact Or.inr (Or.inr (Or.inl h'))
      · exact Or.inr (Or.inr (Or.inr (Or.inl h')))
      · exact Or.inr (Or.inr (Or.inr (Or.inr h')))
  · simp only [if_neg h] at he
    rcases teardown_print_report_events _ _ _ _ e he with h' | h' | h' | h' | h'
    · simp at h'
    · exact Or.inr (Or.inl h')
    · exact Or.inr (Or.inr (Or.inl h'))
    · exact Or.inr (Or.inr (Or.inr (Or.inl h')))
    · exact Or.inr (Or.inr (Or.inr (Or.inr h')))

/-- Running `__aexit__` amounts to running the teardown steps on a context that carries
the same configuration fields as the input and a definitely-present report: the original
one when attached, the substituted empty default (with the error logged) otherwise. -/
theorem aexit_eq (collab : Collaborators) (now : Nat) (exception_value : Option PyExn)
    (ctx : ConnectorContext) :
    ∃ ctx2 report,
      aexit collab now exception_value ctx = teardown_upload_secrets collab ctx2 report
      ∧ ctx2.slack_webhook = ctx.slack_webhook
      ∧ ctx2.reporting_slack_channel = ctx.reporting_slack_channel
      ∧ ctx2.report = some report
      ∧ (ctx.report = none →
          report = { stepResults := [] }
          ∧ "No test report was provided. This is probably due to an upstream error" ∈ ctx2.logs) := by
  cases he : exception_value with
  | none =>
    cases hrep : ctx.report with
    | some r =>
      refine ⟨{ ctx with
        stopped_at := some now
        state := determine_final_state ctx.report none }, r, ?_, rfl, rfl, ?_, ?_⟩
      · unfold aexit
        simp [hrep]
      · simp [hrep]
      · intro hnone
        exact absurd hnone (by simp)
    | none =>
      refine ⟨{ pushLog { ctx with
          stopped_at := some now
          state := determine_final_state ctx.report none }
          "No test report was provided. This is probably due to an upstream error" with
        report := some { stepResults := [] } }, { stepResults := [] }, ?_, rfl, rfl, rfl, ?_⟩
      · unfold aexit
        simp [hrep]
      · intro _
        exact ⟨rfl, by simp [pushLog]⟩
  | some exc =>
    cases hrep : ctx.report with
    | some r =>
      refine ⟨pushLog { ctx with
          stopped_at := some now
          state := determine_final_state ctx.report (some exc) }
          "An error got handled by the ConnectorContext", r, ?_, rfl, rfl, ?_, ?_⟩
      · unfold aexit
        simp [hrep, pushLog]
      · simp [pushLog, hrep]
      · intro hnone
        exact absurd hnone (by simp)
    | none =>
      refine ⟨{ pushLog (pushLog { ctx with
          stopped_at := some now
          state := determine_final_state ctx.report (some exc) }
          "An error got handled by the ConnectorContext")
          "No test report was provided. This is probably due to an upstream error" with
        report := some { stepResults := [] } }, { stepResults := [] }, ?_, rfl, rfl, rfl, ?_⟩
      · unfold aexit
        simp [hrep, pushLog]
      · intro _
        exact ⟨rfl, by simp [pushLog]⟩

/-- When every collaborator call of the run returns normally, a full teardown run reaches
the end of the step sequence. -/
theorem teardown_outcome_ok (collab : Collaborators) (ctx : ConnectorContext)
    (report : ConnectorReport) (msg : String)
    (h1 : collab.upload = Except.ok ()) (h2 : collab.save = Except.ok ())
    (h3 : collab.updateCommitStatusCheck = Except.ok ())
    (h4 : collab.createSlackMessage = Except.ok msg)
    (h5 : collab.sendMessageToWebhook = Except.ok ()) :
    (teardown_upload_secrets collab ctx report).outcome = Except.ok true := by
  unfold teardown_upload_secrets teardown_print_report teardown_save_report
    teardown_commit_status teardown_slack
  by_cases hu : should_save_updated_secrets ctx <;>
    by_cases hs : ctx.should_save_report <;>
    by_cases hm : should_send_slack_message ctx <;>
    simp [h1, h2, h3, h4, h5, hu, hs, hm]

/-- If the slack step is reached with the base, unimplemented `create_slack_message`, the
teardown run ends with `NotImplementedError`. -/
theorem teardown_outcome_not_implemented (collab : Collaborators) (ctx : ConnectorContext)
    (report : ConnectorReport)
    (hsend : should_send_slack_message ctx = true)
    (hbase : collab.createSlackMessage = Except.error PyExn.notImplementedError)
    (h1 : collab.upload = Except.ok ()) (h2 : collab.save = Except.ok ())
    (h3 : collab.updateCommitStatusCheck = Except.ok ()) :
    (teardown_upload_secrets collab ctx report).outcome =
      Except.error PyExn.notImplementedError := by
  unfold teardown_upload_secrets teardown_print_report teardown_save_report
    teardown_commit_status teardown_slack
  by_cases hu : should_save_updated_secrets ctx <;>
    by_cases hs : ctx.should_save_report <;>
    simp [h1, h2, h3, hbase, hsend, hu, hs]

/-- If the status check call raises (the earlier steps returning normally), the teardown
run ends with that exception. -/
theorem teardown_outcome_status_error (collab : Collaborators) (ctx : ConnectorContext)
    (report : ConnectorReport) (err : PyExn)
    (h1 : collab.upload = Except.ok ()) (h2 : collab.save = Except.ok ())
    (h3 : collab.updateCommitStatusCheck = Except.error err) :
    (teardown_upload_secrets collab ctx report).outcome = Except.error err := by
  unfold teardown_upload_secrets teardown_print_report teardown_save_report
    teardown_commit_status
  by_cases hu : should_save_updated_secrets ctx <;>
    by_cases hs : ctx.should_save_report <;>
    simp [h1, h2, h3, hu, hs]

/-- If the status check call raises (the earlier steps returning normally), the slack
collaborator is never invoked during the teardown run. -/
theorem teardown_no_slack_on_status_error (collab : Collaborators) (ctx : ConnectorContext)
    (report : ConnectorReport) (err : PyExn)
    (h1 : collab.upload = Except.ok ()) (h2 : collab.save = Except.ok ())
    (h3 : collab.updateCommitStatusCheck = Except.error err) :
    ∀ m c w, TeardownEvent.sentSlackMessage m c w ∉
      (teardown_upload_secrets collab ctx report).events := by
  intro m c w hmem
  unfold teardown_upload_secrets teardown_print_report teardown_save_report
    teardown_commit_status at hmem
  by_cases hu : should_save_updated_secrets ctx <;>
    by_cases hs : ctx.should_save_report <;>
    simp [h1, h2, h3, hu, hs] at hmem

/-- A context with a slack webhook and a reporting channel configured, and no report
attached when the scope exits. -/
def cxSlackConfigured : ConnectorContext :=
  { slack_webhook := some "https://hooks.slack.example/T000"
    reporting_slack_channel := some "connector-ci" }

/-- All-succeeding collaborators over a concrete type that does not override
`create_slack_message`. -/
def collabBase : Collaborators :=
  { upload := Except.ok ()
    save := Except.ok ()
    updateCommitStatusCheck := Except.ok ()
    sendMessageToWebhook := Except.ok ()
    createSlackMessage := create_slack_message }

/-- All-succeeding collaborators, with an overriding slack message builder. -/
def collabOk : Collaborators :=
  { upload := Except.ok ()
    save := Except.ok ()
    updateCommitStatusCheck := Except.ok ()
    sendMessageToWebhook := Except.ok ()
    createSlackMessage := Except.ok "nightly build summary" }

/-- Collaborators whose commit status check call raises. -/
def collabStatusRaises : Collaborators :=
  { upload := Except.ok ()
    save := Except.ok ()
    updateCommitStatusCheck := Except.error (PyExn.otherError "GithubException")
    sendMessageToWebhook := Except.ok ()
    createSlackMessage := Except.ok "nightly build summary" }

/-- Counterexample to C2: a scope exception is not always suppressed. On a context with a
slack target configured whose concrete type does not override `create_slack_message`, the
notification step raises `NotImplementedError` before `return True` is reached, so
`__aexit__` exits exceptionally rather than returning `True`. -/
theorem aexit_suppression_counterexample :
    (aexit collabBase 7 (some (PyExn.runtimeError "boom")) cxSlackConfigured).outcome =
      Except.error PyExn.notImplementedError
    ∧ (aexit collabBase 7 (some (PyExn.runtimeError "boom")) cxSlackConfigured).outcome ≠
      Except.ok true := by
  have h0 : (aexit collabBase 7 (some (PyExn.runtimeError "boom")) cxSlackConfigured).outcome =
      Except.error PyExn.notImplementedError := rfl
  refine ⟨h0, ?_⟩
  intro hcontra
  rw [h0] at hcontra
  exact Except.noConfusion hcontra

/-- C2 (amended): for every exception raised inside the guarded scope, `__aexit__`
suppresses it and returns `True` provided the teardown steps themselves do not raise,
that is, each collaborator call made during teardown (secret upload, report save, status
check, slack message creation and webhook delivery) returns normally. -/
theorem aexit_suppresses_scope_exception_when_steps_succeed (collab : Collaborators)
    (now : Nat) (exc : PyExn) (ctx : ConnectorContext) (msg : String)
    (h1 : collab.upload = Except.ok ()) (h2 : collab.save = Except.ok ())
    (h3 : collab.updateCommitStatusCheck = Except.ok ())
    (h4 : collab.createSlackMessage = Except.ok msg)
    (h5 : collab.sendMessageToWebhook = Except.ok ()) :
    (aexit collab now (some exc) ctx).outcome = Except.ok true := by
  obtain ⟨ctx2, report, heq, -, -, -, -⟩ := aexit_eq collab now (some exc) ctx
  rw [heq]
  exact teardown_outcome_ok collab ctx2 report msg h1 h2 h3 h4 h5

/-- Witness for the amended C2: with succeeding collaborators and an overriding message
builder, a scope exception leads to a normal `True` exit. -/
theorem aexit_suppresses_scope_exception_when_steps_succeed_witness :
    (collabOk.upload = Except.ok () ∧ collabOk.save = Except.ok ()
      ∧ collabOk.updateCommitStatusCheck = Except.ok ()
      ∧ collabOk.createSlackMessage = Except.ok "nightly build summary"
      ∧ collabOk.sendMessageToWebhook = Except.ok ())
    ∧ (aexit collabOk 7 (some (PyExn.runtimeError "boom")) cxSlackConfigured).outcome =
        Except.ok true :=
  ⟨⟨rfl, rfl, rfl, rfl, rfl⟩,
    aexit_suppresses_scope_exception_when_steps_succeed collabOk 7
      (PyExn.runtimeError "boom") cxSlackConfigured "nightly build summary"
      rfl rfl rfl rfl rfl⟩

/-- Counterexample to C3: the status check call raises while a slack webhook and channel
are configured, yet the run ends with that exception and the event trace contains no
slack invocation — the notification collaborator is not reached. -/
theorem status_check_error_counterexample :
    should_send_slack_message cxSlackConfigured = true
    ∧ (aexit collabStatusRaises 7 none cxSlackConfigured).outcome =
        Except.error (PyExn.otherError "GithubException")
    ∧ ((aexit collabStatusRaises 7 none cxSlackConfigured).events.filter
        (fun e => match e with
          | TeardownEvent.sentSlackMessage _ _ _ => true
          | _ => false)) = [] :=
  ⟨rfl, rfl, rfl⟩

/-- C3 (amended): the teardown steps of `__aexit__` are not individually guarded: an
exception raised by the status-check collaborator propagates out of `__aexit__` and the
subsequent notification step is never invoked (whether or not a webhook and channel are
configured); only collaborator failures handled inside the collaborator itself, without
raising, let the teardown continue. -/
theorem aexit_status_error_aborts_remaining_steps (collab : Collaborators)
    (now : Nat) (exception_value : Option PyExn) (ctx : ConnectorContext) (err : PyExn)
    (h1 : collab.upload = Except.ok ()) (h2 : collab.save = Except.ok ())
    (h3 : collab.updateCommitStatusCheck = Except.error err) :
    (aexit collab now exception_value ctx).outcome = Except.error err
    ∧ ∀ m c w, TeardownEvent.sentSlackMessage m c w ∉
        (aexit collab now exception_value ctx).events := by
  obtain ⟨ctx2, report, heq, -, -, -, -⟩ := aexit_eq collab now exception_value ctx
  rw [heq]
  exact ⟨teardown_outcome_status_error collab ctx2 report err h1 h2 h3,
    teardown_no_slack_on_status_error collab ctx2 report err h1 h2 h3⟩

/-- Witness for the amended C3 at a concrete slack-configured context. -/
theorem aexit_status_error_aborts_remaining_steps_witness :
    (collabStatusRaises.upload = Except.ok () ∧ collabStatusRaises.save = Except.ok ()
      ∧ collabStatusRaises.updateCommitStatusCheck =
          Except.error (PyExn.otherError "GithubException"))
    ∧ ((aexit collabStatusRaises 7 none cxSlackConfigured).outcome =
          Except.error (PyExn.otherError "GithubException")
      ∧ ∀ m c w, TeardownEvent.sentSlackMessage m c w ∉
          (aexit collabStatusRaises 7 none cxSlackConfigured).events) :=
  ⟨⟨rfl, rfl, rfl⟩,
    aexit_status_error_aborts_remaining_steps collabStatusRaises 7 none cxSlackConfigured
      (PyExn.otherError "GithubException") rfl rfl rfl⟩

/-- C4: after teardown the context report is always present; when no report was attached
at scope exit, an error is logged and the empty default report (zero executed steps) is
substituted before any downstream step uses the report, so every print or save event of
the run carries that empty report. -/
theorem aexit_report_always_present (collab : Collaborators) (now : Nat)
    (exception_value : Option PyExn) (ctx : ConnectorContext) :
    ((aexit collab now exception_value ctx).ctx.report).isSome = true
    ∧ (ctx.report = none →
        (aexit collab now exception_value ctx).ctx.report = some { stepResults := [] }
        ∧ "No test report was provided. This is probably due to an upstream error" ∈
            (aexit collab now exception_value ctx).ctx.logs
        ∧ (∀ r, TeardownEvent.printedReport r ∈ (aexit collab now exception_value ctx).events →
            r = { stepResults := [] })
        ∧ (∀ r, TeardownEvent.savedReport r ∈ (aexit collab now exception_value ctx).events →
            r = { stepResults := [] })) := by
  obtain ⟨ctx2, report, heq, -, -, hrep2, hnone⟩ := aexit_eq collab now exception_value ctx
  rw [heq, teardown_upload_secrets_ctx]
  constructor
  · rw [hrep2]
    rfl
  · intro h
    obtain ⟨hre, hlog⟩ := hnone h
    subst hre
    refine ⟨hrep2, hlog, ?_, ?_⟩
    · intro r hr
      rcases teardown_upload_secrets_events collab ctx2 _ _ hr
        with h' | h' | h' | h' | ⟨m, c, w, h'⟩ <;> simp_all
    · intro r hr
      rcases teardown_upload_secrets_events collab ctx2 _ _ hr
        with h' | h' | h' | h' | ⟨m, c, w, h'⟩ <;> simp_all

/-- Witness for C4: on a fresh context with no report, teardown substitutes the empty
report and logs the error. -/
theorem aexit_report_always_present_witness :
    ({} : ConnectorContext).report = none
    ∧ (aexit collabOk 7 none {}).ctx.report = some { stepResults := [] }
    ∧ "No test report was provided. This is probably due to an upstream error" ∈
        (aexit collabOk 7 none {}).ctx.logs :=
  ⟨rfl, ((aexit_report_always_present collabOk 7 none {}).2 rfl).1,
    ((aexit_report_always_present collabOk 7 none {}).2 rfl).2.1⟩

/-- C10: when a slack webhook and channel are configured and the concrete type does not
override `create_slack_message`, the notification step of `__aexit__` calls the base
method, whose `NotImplementedError` is raised before `return True`: `__aexit__` ends
exceptionally and the caller does not observe a normal exit (the earlier collaborator
steps are assumed to return normally, so the notification step is reached). -/
theorem aexit_base_slack_message_escapes (collab : Collaborators) (now : Nat)
    (exception_value : Option PyExn) (ctx : ConnectorContext)
    (hw : ctx.slack_webhook.isSome = true)
    (hc : ctx.reporting_slack_channel.isSome = true)
    (hbase : collab.createSlackMessage = create_slack_message)
    (h1 : collab.upload = Except.ok ()) (h2 : collab.save = Except.ok ())
    (h3 : collab.updateCommitStatusCheck = Except.ok ()) :
    (aexit collab now exception_value ctx).outcome = Except.error PyExn.notImplementedError
    ∧ (aexit collab now exception_value ctx).outcome ≠ Except.ok true := by
  obtain ⟨ctx2, report, heq, hsw, hch, -, -⟩ := aexit_eq collab now exception_value ctx
  have hsend : should_send_slack_message ctx2 = true := by
    simp [should_send_slack_message, hsw, hch, hw, hc]
  have hbase2 : collab.createSlackMessage = Except.error PyExn.notImplementedError := hbase
  rw [heq]
  have h0 := teardown_outcome_not_implemented collab ctx2 report hsend hbase2 h1 h2 h3
  refine ⟨h0, ?_⟩
  intro hcontra
  rw [h0] at hcontra
  exact Except.noConfusion hcontra

/-- Witness for C10 at a concrete slack-configured context with the base message
builder. -/
theorem aexit_base_slack_message_escapes_witness :
    (cxSlackConfigured.slack_webhook.isSome = true
      ∧ cxSlackConfigured.reporting_slack_channel.isSome = true
      ∧ collabBase.createSlackMessage = create_slack_message)
    ∧ ((aexit collabBase 7 none cxSlackConfigured).outcome =
          Except.error PyExn.notImplementedError
      ∧ (aexit collabBase 7 none cxSlackConfigured).outcome ≠ Except.ok true) :=
  ⟨⟨rfl, rfl, rfl⟩,
    aexit_base_slack_message_escapes collabBase 7 none cxSlackConfigured
      rfl rfl rfl rfl rfl rfl⟩
